import Mathlib

set_option maxRecDepth 100000

/-!
Verification of the conversation orchestration engine of
`seagoat_on_steroids/assistant.py`.

The Python module is shallowly embedded: the global mutable state
(`messages`, `prompt_tokens`, `completion_tokens`, plus the single
session-history file written by `save_history`) becomes an explicit
`AppState`; the two external effects of one turn — the SeaGOAT context
query and the HTTP chat-completion call — become explicit inputs, and
the Python exceptions used for control flow (`KeyboardInterrupt`,
`EOFError`, uncaught propagation) become an explicit `TurnExit` value.
-/

/-- One chat message, `{"role": ..., "content": ...}`. -/
structure Message where
  role : String
  content : String
deriving Repr, DecidableEq

/-- The JSON object written by `save_history`. -/
structure SessionRecord where
  model : String
  messages : List Message
  prompt_tokens : Nat
  completion_tokens : Nat
deriving Repr, DecidableEq

/-- The process-global conversation state of `assistant.py`:
the `messages` list, the two token counters, and the content of the
per-run session-history file (`None` while `save_history` has not run). -/
structure AppState where
  messages : List Message
  prompt_tokens : Nat
  completion_tokens : Nat
  savedRecord : Option SessionRecord
deriving Repr, DecidableEq

/-- The configuration fields of `config` that `start_prompt` consults for
state-relevant behaviour (`config["model"]` and `config["non_interactive"]`;
the remaining keys only shape the request body or terminal output). -/
structure Config where
  model : String
  non_interactive : Bool
deriving Repr, DecidableEq

/-- One line of a SeaGOAT result block: `{"line": ..., "lineText": ...}`. -/
structure SeagoatLine where
  line : Nat
  lineText : String
deriving Repr, DecidableEq

/-- One block of a SeaGOAT result: `{"lines": [...]}`. -/
structure SeagoatBlock where
  lines : List SeagoatLine
deriving Repr, DecidableEq

/-- One SeaGOAT result: `{"path": ..., "blocks": [...]}`. -/
structure SeagoatResult where
  path : String
  blocks : List SeagoatBlock
deriving Repr, DecidableEq

/-- Python `str.lower()` restricted to the character-wise case mapping
(the only inputs compared after lowering are ASCII). -/
def pyLower (s : String) : String :=
  String.mk (s.data.map Char.toLower)

/-- The fixed text of the f-string in `start_prompt` that precedes the
interpolated SeaGOAT context. -/
def promptPreamble : String :=
  "Answer the users query with the following code snippets from their code repository as your context:\n"

/-- The fixed text of the f-string in `start_prompt` between the SeaGOAT
context and the interpolated raw utterance: the `====` separator, the
relevance caveat, and the lead-in up to the opening quote. -/
def promptMiddle : String :=
  "\n====\nKeep in mind that you only need to use this context if it\x27s actually relevant to the context.\nFeel free to mention different options, and if possible mention even the code line numbers.\nFinally, this is the actual user query that you have to answer: \""

/-- The fixed tail of the f-string in `start_prompt`: the closing quote,
a newline, and the four spaces of indentation before the closing `\"\"\"`. -/
def promptTail : String := "\"\n    "

/-- The augmented message built by the f-string in `start_prompt`
(source lines 245–251). -/
def augmentMessage (ctx userQuery : String) : String :=
  promptPreamble ++ ctx ++ promptMiddle ++ userQuery ++ promptTail

/-- The lines appended to `result_lines` for one block of one result in
`get_context_from_seagoat` (source lines 206–215).  Python indexes
`block["lines"][0]` and `block["lines"][-1]`, so an empty `lines` list
raises `IndexError`: that is the `none` case. -/
def blockContextLines (path : String) (block : SeagoatBlock) : Option (List String) :=
  match block.lines with
  | [] => none
  | l0 :: rest =>
    let lastLine := (l0 :: rest).getLast (List.cons_ne_nil l0 rest)
    some (["File: " ++ path,
           "Lines: " ++ toString l0.line ++ "-" ++ toString lastLine.line,
           "",
           "```"]
          ++ (l0 :: rest).map SeagoatLine.lineText
          ++ ["```"])

/-- The lines contributed by the blocks of one SeaGOAT result (the inner
loop of `get_context_from_seagoat` over `result["blocks"]`); `none`
propagates the `IndexError` of an empty block. -/
def blocksContextLines (path : String) : List SeagoatBlock → Option (List String)
  | [] => some []
  | b :: bs =>
    match blockContextLines path b, blocksContextLines path bs with
    | some ls, some rest => some (ls ++ rest)
    | _, _ => none

/-- The outer loop of `get_context_from_seagoat` over `seagoat_results`. -/
def resultsContextLines : List SeagoatResult → Option (List String)
  | [] => some []
  | r :: rs =>
    match blocksContextLines r.path r.blocks, resultsContextLines rs with
    | some ls, some rest => some (ls ++ rest)
    | _, _ => none

/-- `get_context_from_seagoat` after the external `query_server` /
`rewrite_full_paths_to_use_local_path` calls: renders the result list into
`"\n".join(result_lines)`.  `none` models the `IndexError` raised on a
block with no lines. -/
def get_context_from_seagoat (results : List SeagoatResult) : Option String :=
  (resultsContextLines results).map (String.intercalate "\n")

/-- Outcome of the `requests.post` call: an HTTP response, or one of the
two caught request exceptions. -/
structure ApiResponse where
  status : Nat
  message : Message
  usagePrompt : Nat
  usageCompletion : Nat
  errorCode : Option String
deriving Repr, DecidableEq

inductive RequestResult where
  | response (r : ApiResponse)
  | connectionError
  | timeout
deriving Repr, DecidableEq

/-- How one call of `start_prompt` returns to the `while True` loop in
`main`: a normal return, a raised `KeyboardInterrupt` (loop continues), a
raised `EOFError` (loop breaks), or an uncaught exception (the process
dies: `main` catches only the former two). -/
inductive TurnExit where
  | normal
  | keyboardInterrupt
  | eofError
  | uncaughtError
deriving Repr, DecidableEq

/-- Result of one `start_prompt` call: the exit path, the state after the
call, and whether the remote chat-completion request was performed. -/
structure TurnResult where
  exit : TurnExit
  state : AppState
  remoteCalled : Bool
deriving Repr, DecidableEq

/-- `save_history(model, messages, prompt_tokens, completion_tokens)`:
overwrites the single per-run session file with this record. -/
def save_history (model : String) (msgs : List Message)
    (pt ct : Nat) : SessionRecord :=
  ⟨model, msgs, pt, ct⟩

/-- Shallow embedding of `start_prompt` (source lines 220–363), for one
turn whose raw utterance is `utterance`, whose SeaGOAT query result is
`seagoat` (`Except.error` models an exception raised inside
`query_server`), and whose remote call outcome is `request`. -/
def start_prompt (cfg : Config) (utterance : String)
    (seagoat : Except Unit (List SeagoatResult))
    (request : RequestResult) (st : AppState) : TurnResult :=
  match seagoat with
  | .error _ => ⟨.uncaughtError, st, false⟩
  | .ok results =>
    match get_context_from_seagoat results with
    | none => ⟨.uncaughtError, st, false⟩
    | some ctx =>
      let message := augmentMessage ctx utterance
      if pyLower message = "/q" then ⟨.eofError, st, false⟩
      else if pyLower message = "" then ⟨.keyboardInterrupt, st, false⟩
      else
        let st1 := { st with messages := st.messages ++ [⟨"user", message⟩] }
        match request with
        | .connectionError =>
          ⟨.keyboardInterrupt, { st1 with messages := st1.messages.dropLast }, true⟩
        | .timeout =>
          ⟨.keyboardInterrupt, { st1 with messages := st1.messages.dropLast }, true⟩
        | .response r =>
          if r.status = 200 then
            let st2 := { st1 with
              messages := st1.messages ++ [r.message],
              prompt_tokens := st1.prompt_tokens + r.usagePrompt,
              completion_tokens := st1.completion_tokens + r.usageCompletion }
            let st3 := { st2 with
              savedRecord :=
                some (save_history cfg.model st2.messages
                  st2.prompt_tokens st2.completion_tokens) }
            if cfg.non_interactive then ⟨.eofError, st3, true⟩
            else ⟨.normal, st3, true⟩
          else if r.status = 400 then
            if r.errorCode = some "context_length_exceeded" then
              ⟨.eofError, st1, true⟩
            else
              ⟨.eofError, st1, true⟩
          else if r.status = 401 then ⟨.eofError, st1, true⟩
          else if r.status = 429 then
            ⟨.keyboardInterrupt, { st1 with messages := st1.messages.dropLast }, true⟩
          else if r.status = 500 then
            ⟨.keyboardInterrupt, { st1 with messages := st1.messages.dropLast }, true⟩
          else if r.status = 502 ∨ r.status = 503 then
            ⟨.keyboardInterrupt, { st1 with messages := st1.messages.dropLast }, true⟩
          else ⟨.eofError, st1, true⟩

/-- The external inputs consumed by one iteration of the main loop. -/
structure TurnEnv where
  utterance : String
  seagoat : Except Unit (List SeagoatResult)
  request : RequestResult
deriving Repr

/-- The `while True` loop of `main` (source lines 500–506): each
iteration runs `start_prompt`; `KeyboardInterrupt` continues the loop, a
normal return also loops, `EOFError` breaks, and any other exception
kills the process.  Returns the final state and the number of turns
started. -/
def runTurns (cfg : Config) (st : AppState) : List TurnEnv → AppState × Nat
  | [] => (st, 0)
  | e :: rest =>
    let r := start_prompt cfg e.utterance e.seagoat e.request st
    match r.exit with
    | .normal =>
      let (st2, n) := runTurns cfg r.state rest
      (st2, n + 1)
    | .keyboardInterrupt =>
      let (st2, n) := runTurns cfg r.state rest
      (st2, n + 1)
    | .eofError => (r.state, 1)
    | .uncaughtError => (r.state, 1)


/-- Python `str.replace` on character lists: replace all non-overlapping
occurrences of `pat`, scanning left to right.  The fuel argument is the
length of the scanned list, which suffices because every step consumes at
least one character when `pat` is nonempty. -/
def replaceCharsAux (pat rep : List Char) : Nat → List Char → List Char
  | 0, s => s
  | _, [] => []
  | fuel + 1, c :: rest =>
    if pat ≠ [] ∧ pat.isPrefixOf (c :: rest) = true then
      rep ++ replaceCharsAux pat rep fuel ((c :: rest).drop pat.length)
    else
      c :: replaceCharsAux pat rep fuel rest

/-- Python `s.replace(pat, rep)` (the empty-pattern case never occurs in
the embedded code and is mapped to the identity). -/
def pyReplace (s pat rep : String) : String :=
  if pat = "" then s
  else String.mk (replaceCharsAux pat.data rep.data s.data.length s.data)

/-- Python `s.endswith(suffix)`. -/
def pyEndsWith (s suf : String) : Bool :=
  suf.data.isSuffixOf s.data

/-- The filename-to-timestamp stripping in `get_last_save_file`:
`f.replace("chatgpt-session-", "").replace(".json", "")`. -/
def stripSessionName (f : String) : String :=
  pyReplace (pyReplace f "chatgpt-session-" "") ".json" ""

/-- Lexicographic order on character lists, comparing code points — the
order Python `list.sort()` uses on strings. -/
def charListLe : List Char → List Char → Bool
  | [], _ => true
  | _ :: _, [] => false
  | a :: as, b :: bs =>
    if a < b then true
    else if b < a then false
    else charListLe as bs

/-- Python string comparison `a <= b` (lexicographic on code points). -/
def pyStrLe (a b : String) : Bool :=
  charListLe a.data b.data

/-- `pyStrLe` as a relation, the order `ts.sort()` sorts by. -/
def strle (a b : String) : Prop :=
  pyStrLe a b = true

instance : DecidableRel strle :=
  fun a b => Bool.decEq (pyStrLe a b) true

/-- `get_last_save_file` (source lines 98–108) over the list of filenames
in the session-history directory: keep the `.json` files, strip them to
timestamps, sort, and return the last element (Python `ts.sort()` is
lexicographic on code points, as is the `String` order used here). -/
def get_last_save_file (files : List String) : Option String :=
  let fs := files.filter (fun f => pyEndsWith f ".json")
  if fs.isEmpty then none
  else
    let ts := fs.map stripSessionName
    (List.insertionSort strle ts).getLast?

/-- `load_history_data` (source lines 88–95) against a model of the
session-history directory as an association list from filename to stored
record; a missing file is `FileNotFoundError`, the `Except.error` case. -/
def load_history_data (fs : List (String × SessionRecord)) (name : String) :
    Except Unit SessionRecord :=
  match fs.lookup name with
  | some r => .ok r
  | none => .error ()

/-- The restore-file resolution in `main` (source lines 467–472): `"last"`
resolves through `get_last_save_file`; Python interpolates `None` as the
string `"None"` when no save file exists. -/
def restoreFileName (restoreArg : String) (files : List String) : String :=
  if restoreArg = "last" then
    "chatgpt-session-" ++
      (match get_last_save_file files with
       | some t => t
       | none => "None") ++ ".json"
  else
    "chatgpt-session-" ++ restoreArg ++ ".json"

/-- The system instruction appended by `add_markdown_system_message`. -/
def markdownInstruction : String :=
  "Always use code blocks with the appropriate language tags. If asked for a table always format it using Markdown syntax."

/-- Outcome of the startup phase of `main`: the initial `AppState` and
whether a requested restore failed with a reported missing file. -/
structure StartupResult where
  state : AppState
  restoreMissingReported : Bool
deriving Repr, DecidableEq

/-- The state-building part of `main` (source lines 454–489): start from
an empty message list and zero counters, append the markdown system
message if enabled, append one system message per `--context` file (the
list holds the already-read, stripped file contents), then handle
`--restore`: the message list is cleared before the load is attempted, a
successful load installs the stored messages and adds the stored
counters, and a `FileNotFoundError` is caught and reported, leaving the
cleared state in place. -/
def main_startup (markdown : Bool) (contextFiles : List String)
    (restore : Option String) (fs : List (String × SessionRecord)) :
    StartupResult :=
  let msgs0 : List Message := []
  let msgs1 := if markdown then msgs0 ++ [⟨"system", markdownInstruction⟩] else msgs0
  let msgs2 := msgs1 ++ contextFiles.map (fun c => ⟨"system", c⟩)
  match restore with
  | none => ⟨⟨msgs2, 0, 0, none⟩, false⟩
  | some restoreArg =>
    let restoreFile := restoreFileName restoreArg (fs.map Prod.fst)
    match load_history_data fs restoreFile with
    | .ok hist =>
      ⟨⟨hist.messages, 0 + hist.prompt_tokens, 0 + hist.completion_tokens, none⟩, false⟩
    | .error _ => ⟨⟨[], 0, 0, none⟩, true⟩

/-- The static `PRICING_RATE` table, with the decimal literals of the
source written as exact rationals. -/
def PRICING_RATE : List (String × ℚ × ℚ) :=
  [("gpt-3.5-turbo", 1/1000, 2/1000),
   ("gpt-3.5-turbo-1106", 1/1000, 2/1000),
   ("gpt-3.5-turbo-0613", 1/1000, 2/1000),
   ("gpt-3.5-turbo-16k", 1/1000, 2/1000),
   ("gpt-4", 3/100, 6/100),
   ("gpt-4-0613", 3/100, 6/100),
   ("gpt-4-32k", 6/100, 12/100),
   ("gpt-4-32k-0613", 6/100, 12/100),
   ("gpt-4-1106-preview", 1/100, 3/100)]

/-- Floor of a rational, computed by floor division on the reduced
numerator and denominator. -/
def ratFloor (q : ℚ) : ℤ :=
  q.num.fdiv q.den

/-- Round to the nearest integer, ties to even — the rounding used by
Python `round`. -/
def roundHalfEven (q : ℚ) : ℤ :=
  let f := ratFloor q
  let r := q - (f : ℚ)
  if r < 1/2 then f
  else if (1 : ℚ)/2 < r then f + 1
  else if f % 2 = 0 then f else f + 1

/-- The character for fractional digit `k` (counting from the right) of
the micro-units value `m`. -/
def fracDigit (m k : Nat) : Char :=
  Nat.digitChar (m / 10 ^ k % 10)

/-- Python `"{:.6f}".format(round(expense, 6))` with floats modelled as
exact rationals: round the value to micro-units (ties to even) and print
it in fixed-point notation with exactly six fractional digits. -/
def formatFixed6 (q : ℚ) : String :=
  let micro := roundHalfEven (q * 1000000)
  let sign := if micro < 0 then "-" else ""
  let m := micro.natAbs
  sign ++ Nat.repr (m / 1000000) ++ "." ++
    String.mk [fracDigit m 5, fracDigit m 4, fracDigit m 3,
               fracDigit m 2, fracDigit m 1, fracDigit m 0]

/-- `calculate_expense` (source lines 147–163). -/
def calculate_expense (pt ct : Nat)
    (prompt_pricing completion_pricing : ℚ) : String :=
  let expense : ℚ :=
    ((pt : ℚ) / 1000) * prompt_pricing + ((ct : ℚ) / 1000) * completion_pricing
  formatFixed6 expense

/-- What `display_expense` reports: an estimate (when the model has a
pricing entry) or the no-estimate warning. -/
inductive ExpenseOutput where
  | estimate (totalTokens : Nat) (expense : String)
  | noEstimate (totalTokens : Nat) (model : String)
deriving Repr, DecidableEq

/-- `display_expense` (source lines 166–190) as a function of the model
and the two global counters. -/
def display_expense (model : String) (pt ct : Nat) : ExpenseOutput :=
  match PRICING_RATE.lookup model with
  | some (pp, cp) => .estimate (pt + ct) (calculate_expense pt ct pp cp)
  | none => .noEstimate (pt + ct) model


/-- Modelled from claim C6's words: one stanza per retrieved block —
`File: <path>`, `Lines: <first line number>-<last line number>`, a blank
line, and the block's source lines verbatim between triple-backtick
fences. -/
def specStanza (path : String) (block : SeagoatBlock) : List String :=
  ["File: " ++ path,
   "Lines: " ++ toString ((block.lines.map SeagoatLine.line).headD 0) ++ "-" ++
     toString ((block.lines.map SeagoatLine.line).getLastD 0),
   "",
   "```"] ++ block.lines.map SeagoatLine.lineText ++ ["```"]

/-- The stanza lines of all blocks of all results, in the order received. -/
def specContextLines (results : List SeagoatResult) : List String :=
  (results.map (fun r => (r.blocks.map (specStanza r.path)).flatten)).flatten

/-- The literal relevance caveat text from the f-string in `start_prompt`. -/
def caveatText : String :=
  "Keep in mind that you only need to use this context if it\x27s actually relevant to the context.\nFeel free to mention different options, and if possible mention even the code line numbers."

/-- Modelled from claim C6 as stated: an augmented prompt that *consists
of* the stanzas (in order), followed by the literal caveat text, followed
by the literal original utterance in quotes — nothing before the first
stanza and nothing else in between. -/
def claimPromptC6 (results : List SeagoatResult) (u : String) : String :=
  String.intercalate "\n" (specContextLines results) ++ "\n" ++ caveatText ++
    "\n" ++ "\"" ++ u ++ "\""

/-- Modelled from the spec's words in C9: the exact expense
`(prompt_tokens/1000)*prompt_rate + (completion_tokens/1000)*completion_rate`. -/
def spec_estimate (pt ct : Nat) (pr cr : ℚ) : ℚ :=
  ((pt : ℚ) / 1000) * pr + ((ct : ℚ) / 1000) * cr

theorem charListLe_refl : ∀ l : List Char, charListLe l l = true := by
  intro l
  induction l with
  | nil => rfl
  | cons a as ih => simp [charListLe, ih]

theorem charListLe_total : ∀ xs ys : List Char,
    charListLe xs ys = true ∨ charListLe ys xs = true := by
  intro xs
  induction xs with
  | nil => intro ys; exact Or.inl rfl
  | cons a as ih =>
    intro ys
    cases ys with
    | nil => exact Or.inr rfl
    | cons b bs =>
      rcases lt_trichotomy a b with h | h | h
      · left; simp [charListLe, h]
      · subst h
        rcases ih bs with h2 | h2
        · left; simp [charListLe, h2]
        · right; simp [charListLe, h2]
      · right; simp [charListLe, h]

theorem charListLe_trans : ∀ xs ys zs : List Char,
    charListLe xs ys = true → charListLe ys zs = true → charListLe xs zs = true := by
  intro xs
  induction xs with
  | nil => intro ys zs h1 h2; rfl
  | cons a as ih =>
    intro ys zs h1 h2
    cases ys with
    | nil => simp [charListLe] at h1
    | cons b bs =>
      cases zs with
      | nil => simp [charListLe] at h2
      | cons c cs =>
        rcases lt_trichotomy a b with hab | hab | hab
        · rcases lt_trichotomy b c with hbc | hbc | hbc
          · simp [charListLe, lt_trans hab hbc]
          · subst hbc; simp [charListLe, hab]
          · simp [charListLe, hbc, asymm hbc] at h2
        · subst hab
          rcases lt_trichotomy a c with hac | hac | hac
          · simp [charListLe, hac]
          · subst hac
            simp [charListLe] at h1 h2 ⊢
            exact ih bs cs h1 h2
          · simp [charListLe, hac, asymm hac] at h2
        · simp [charListLe, hab, asymm hab] at h1

theorem charListLe_antisymm : ∀ xs ys : List Char,
    charListLe xs ys = true → charListLe ys xs = true → xs = ys := by
  intro xs
  induction xs with
  | nil =>
    intro ys h1 h2
    cases ys with
    | nil => rfl
    | cons b bs => simp [charListLe] at h2
  | cons a as ih =>
    intro ys h1 h2
    cases ys with
    | nil => simp [charListLe] at h1
    | cons b bs =>
      rcases lt_trichotomy a b with hab | hab | hab
      · simp [charListLe, hab, asymm hab] at h2
      · subst hab
        simp [charListLe] at h1 h2
        rw [ih bs h1 h2]
      · simp [charListLe, hab, asymm hab] at h1

theorem strle_refl (a : String) : strle a a :=
  charListLe_refl a.data

instance : IsTotal String strle :=
  ⟨fun a b => charListLe_total a.data b.data⟩

instance : IsTrans String strle :=
  ⟨fun a b c => charListLe_trans a.data b.data c.data⟩

theorem strle_antisymm {a b : String} (h1 : strle a b) (h2 : strle b a) : a = b :=
  String.ext (charListLe_antisymm a.data b.data h1 h2)

theorem sorted_rel_getLast {α : Type} {r : α → α → Prop} (hrefl : ∀ a, r a a) :
    ∀ (l : List α) (hl : l ≠ []), l.Sorted r → ∀ x ∈ l, r x (l.getLast hl) := by
  intro l
  induction l with
  | nil => intro hl; exact absurd rfl hl
  | cons a as ih =>
    intro hl hs x hx
    cases as with
    | nil =>
      rcases List.mem_singleton.mp hx with rfl
      exact hrefl x
    | cons b bs =>
      rcases List.mem_cons.mp hx with rfl | hx'
      · rw [List.getLast_cons (List.cons_ne_nil b bs)]
        exact List.rel_of_sorted_cons hs _ (List.getLast_mem (List.cons_ne_nil b bs))
      · rw [List.getLast_cons (List.cons_ne_nil b bs)]
        exact ih (List.cons_ne_nil b bs) (List.sorted_cons.mp hs).2 x hx'

theorem pyLower_length (s : String) : (pyLower s).length = s.length :=
  List.length_map s.data Char.toLower

theorem augmentMessage_length (ctx u : String) :
    (augmentMessage ctx u).length =
      promptPreamble.length + ctx.length + promptMiddle.length
        + u.length + promptTail.length := by
  simp [augmentMessage, String.length_append]

/-- The sentinel comparisons in `start_prompt` are made against the
augmented message, which is always longer than `"/q"` and nonempty, so
neither check can ever succeed. -/
theorem augment_ne_sentinels (ctx u : String) :
    pyLower (augmentMessage ctx u) ≠ "/q" ∧ pyLower (augmentMessage ctx u) ≠ "" := by
  have h1 := pyLower_length (augmentMessage ctx u)
  have h2 := augmentMessage_length ctx u
  have hp : 3 ≤ promptPreamble.length := by decide
  have hq : ("/q" : String).length = 2 := rfl
  have he : ("" : String).length = 0 := rfl
  constructor
  · intro h
    rw [h, hq] at h1
    omega
  · intro h
    rw [h, he] at h1
    omega

theorem ratFloor_intCast (n : ℤ) : ratFloor (n : ℚ) = n := by
  simp [ratFloor, Rat.intCast_num, Rat.intCast_den]

theorem roundHalfEven_intCast (n : ℤ) : roundHalfEven (n : ℚ) = n := by
  simp [roundHalfEven, ratFloor_intCast]

theorem formatFixed6_of_intMicro (q : ℚ) (n : ℤ) (h : q * 1000000 = (n : ℚ)) :
    formatFixed6 q =
      (if n < 0 then "-" else "") ++ Nat.repr (n.natAbs / 1000000) ++ "." ++
        String.mk [fracDigit n.natAbs 5, fracDigit n.natAbs 4, fracDigit n.natAbs 3,
                   fracDigit n.natAbs 2, fracDigit n.natAbs 1, fracDigit n.natAbs 0] := by
  simp only [formatFixed6, h, roundHalfEven_intCast]

theorem digitChar_isDigit : ∀ x : Nat, x < 10 → (Nat.digitChar x).isDigit = true := by
  decide

theorem calculate_expense_eq (pt ct : Nat) (pr cr : ℚ) :
    calculate_expense pt ct pr cr = formatFixed6 (spec_estimate pt ct pr cr) := rfl

theorem map_getLastD {α β : Type} (f : α → β) :
    ∀ (l : List α) (h : l ≠ []) (d : β), (l.map f).getLastD d = f (l.getLast h) := by
  intro l
  induction l with
  | nil => intro h; exact absurd rfl h
  | cons a as ih =>
    intro h d
    cases as with
    | nil => rfl
    | cons b bs =>
      have hih := ih (List.cons_ne_nil b bs) (f a)
      simpa [List.getLast_cons] using hih

theorem blockContextLines_eq (path : String) (b : SeagoatBlock)
    (hb : b.lines ≠ []) :
    blockContextLines path b = some (specStanza path b) := by
  obtain ⟨lines⟩ := b
  cases lines with
  | nil => exact absurd rfl hb
  | cons l0 rest =>
    have h2 : (l0.line :: List.map SeagoatLine.line rest).getLast?.getD 0
        = ((l0 :: rest).getLast (List.cons_ne_nil l0 rest)).line := by
      have h3 := map_getLastD SeagoatLine.line (l0 :: rest) (List.cons_ne_nil l0 rest) 0
      simpa [List.getLastD_eq_getLast?] using h3
    simp [blockContextLines, specStanza]
    rw [h2]

theorem blocksContextLines_eq (path : String) :
    ∀ bs : List SeagoatBlock, (∀ b ∈ bs, b.lines ≠ []) →
      blocksContextLines path bs = some ((bs.map (specStanza path)).flatten) := by
  intro bs
  induction bs with
  | nil => intro h; rfl
  | cons b rest ih =>
    intro h
    have hb := blockContextLines_eq path b (h b (List.mem_cons_self b rest))
    have hr := ih (fun x hx => h x (List.mem_cons_of_mem b hx))
    simp [blocksContextLines, hb, hr]

theorem resultsContextLines_eq :
    ∀ results : List SeagoatResult,
      (∀ r ∈ results, ∀ b ∈ r.blocks, b.lines ≠ []) →
      resultsContextLines results = some (specContextLines results) := by
  intro results
  induction results with
  | nil => intro h; rfl
  | cons r rs ih =>
    intro h
    have hb := blocksContextLines_eq r.path r.blocks (h r (List.mem_cons_self r rs))
    have hr := ih (fun x hx => h x (List.mem_cons_of_mem r hx))
    simp [resultsContextLines, hb, hr, specContextLines]

theorem get_context_eq (results : List SeagoatResult)
    (h : ∀ r ∈ results, ∀ b ∈ r.blocks, b.lines ≠ []) :
    get_context_from_seagoat results
      = some (String.intercalate "\n" (specContextLines results)) := by
  simp [get_context_from_seagoat, resultsContextLines_eq results h]

/-- What `get_last_save_file` returns: some timestamp of a `.json` file,
and a lexicographic upper bound of all timestamps of `.json` files. -/
theorem get_last_save_file_spec (files : List String) (t : String)
    (ht : get_last_save_file files = some t) :
    (∃ f, f ∈ files ∧ pyEndsWith f ".json" = true ∧ stripSessionName f = t)
    ∧ (∀ f ∈ files, pyEndsWith f ".json" = true → strle (stripSessionName f) t) := by
  unfold get_last_save_file at ht
  by_cases hemp : (files.filter (fun f => pyEndsWith f ".json")).isEmpty
  · simp [hemp] at ht
  · simp only [hemp, if_false, Bool.false_eq_true] at ht
    have hperm := List.perm_insertionSort strle
      ((files.filter (fun f => pyEndsWith f ".json")).map stripSessionName)
    have hsort := List.sorted_insertionSort strle
      ((files.filter (fun f => pyEndsWith f ".json")).map stripSessionName)
    have hne : List.insertionSort strle
        ((files.filter (fun f => pyEndsWith f ".json")).map stripSessionName) ≠ [] := by
      intro h0
      rw [h0] at ht
      simp at ht
    have hlast : (List.insertionSort strle
        ((files.filter (fun f => pyEndsWith f ".json")).map stripSessionName)).getLast hne
        = t := by
      rw [List.getLast?_eq_getLast _ hne] at ht
      exact Option.some.inj ht
    constructor
    · have htmem : t ∈ (files.filter (fun f => pyEndsWith f ".json")).map stripSessionName :=
        hperm.mem_iff.mp (hlast ▸ List.getLast_mem hne)
      rcases List.mem_map.mp htmem with ⟨f, hf_fs, hf_strip⟩
      rcases List.mem_filter.mp hf_fs with ⟨hf_files, hf_ends⟩
      exact ⟨f, hf_files, hf_ends, hf_strip⟩
    · intro f hf hends
      have hmem_fs : f ∈ files.filter (fun f => pyEndsWith f ".json") :=
        List.mem_filter.mpr ⟨hf, hends⟩
      have hmem_ts : stripSessionName f
          ∈ (files.filter (fun f => pyEndsWith f ".json")).map stripSessionName :=
        List.mem_map_of_mem _ hmem_fs
      have hmem_sorted := hperm.mem_iff.mpr hmem_ts
      have hrel := sorted_rel_getLast strle_refl _ hne hsort _ hmem_sorted
      rwa [hlast] at hrel

/-- C1: for every turn that ends in Success (HTTP 200), the message
sequence grows by exactly two — the provisional user message (appended
before the remote call) followed by the assistant message taken from the
response — each token counter increases by exactly the amount reported in
the response's usage field, and the session record is synchronously
overwritten with the updated messages and counters before control
returns to the loop. -/
theorem c1_success_turn (cfg : Config) (u ctx : String)
    (results : List SeagoatResult) (r : ApiResponse) (st : AppState)
    (hctx : get_context_from_seagoat results = some ctx)
    (hs : r.status = 200) :
    (start_prompt cfg u (.ok results) (.response r) st).state.messages
        = st.messages ++ [⟨"user", augmentMessage ctx u⟩, r.message]
    ∧ (start_prompt cfg u (.ok results) (.response r) st).state.prompt_tokens
        = st.prompt_tokens + r.usagePrompt
    ∧ (start_prompt cfg u (.ok results) (.response r) st).state.completion_tokens
        = st.completion_tokens + r.usageCompletion
    ∧ (start_prompt cfg u (.ok results) (.response r) st).state.savedRecord
        = some (save_history cfg.model
            (st.messages ++ [⟨"user", augmentMessage ctx u⟩, r.message])
            (st.prompt_tokens + r.usagePrompt)
            (st.completion_tokens + r.usageCompletion))
    ∧ (start_prompt cfg u (.ok results) (.response r) st).remoteCalled = true := by
  obtain ⟨h1, h2⟩ := augment_ne_sentinels ctx u
  cases hni : cfg.non_interactive <;>
    simp [start_prompt, hctx, hs, h1, h2, hni, save_history]

/-- C1 witness: a concrete successful turn. -/
theorem c1_success_turn_witness :
    get_context_from_seagoat [] = some ""
    ∧ ((start_prompt ⟨"gpt-4", false⟩ "hi" (.ok [])
          (.response ⟨200, ⟨"assistant", "hello"⟩, 3, 4, none⟩)
          ⟨[], 0, 0, none⟩).state.messages
        = [] ++ [⟨"user", augmentMessage "" "hi"⟩, ⟨"assistant", "hello"⟩]
      ∧ (start_prompt ⟨"gpt-4", false⟩ "hi" (.ok [])
          (.response ⟨200, ⟨"assistant", "hello"⟩, 3, 4, none⟩)
          ⟨[], 0, 0, none⟩).state.prompt_tokens = 0 + 3
      ∧ (start_prompt ⟨"gpt-4", false⟩ "hi" (.ok [])
          (.response ⟨200, ⟨"assistant", "hello"⟩, 3, 4, none⟩)
          ⟨[], 0, 0, none⟩).state.completion_tokens = 0 + 4
      ∧ (start_prompt ⟨"gpt-4", false⟩ "hi" (.ok [])
          (.response ⟨200, ⟨"assistant", "hello"⟩, 3, 4, none⟩)
          ⟨[], 0, 0, none⟩).state.savedRecord
        = some (save_history "gpt-4"
            ([] ++ [⟨"user", augmentMessage "" "hi"⟩, ⟨"assistant", "hello"⟩])
            (0 + 3) (0 + 4))
      ∧ (start_prompt ⟨"gpt-4", false⟩ "hi" (.ok [])
          (.response ⟨200, ⟨"assistant", "hello"⟩, 3, 4, none⟩)
          ⟨[], 0, 0, none⟩).remoteCalled = true) :=
  ⟨rfl, c1_success_turn ⟨"gpt-4", false⟩ "hi" "" []
    ⟨200, ⟨"assistant", "hello"⟩, 3, 4, none⟩ ⟨[], 0, 0, none⟩ rfl rfl⟩

/-- C2: for every turn that ends in a RetryableFailure — HTTP 429, 500,
502 or 503, or a connection error or timeout — the provisional user
message is popped again, so the state after the turn (messages, both
counters, and the saved record) equals the state before it, and the turn
signals retry (`KeyboardInterrupt`). -/
theorem c2_retryable_rollback (cfg : Config) (u ctx : String)
    (results : List SeagoatResult) (req : RequestResult) (st : AppState)
    (hctx : get_context_from_seagoat results = some ctx)
    (hreq : req = .connectionError ∨ req = .timeout
      ∨ ∃ r, req = .response r
          ∧ (r.status = 429 ∨ r.status = 500 ∨ r.status = 502 ∨ r.status = 503)) :
    (start_prompt cfg u (.ok results) req st).state = st
    ∧ (start_prompt cfg u (.ok results) req st).exit = .keyboardInterrupt := by
  obtain ⟨h1, h2⟩ := augment_ne_sentinels ctx u
  rcases hreq with rfl | rfl | ⟨r, rfl, hs⟩
  · simp [start_prompt, hctx, h1, h2]
  · simp [start_prompt, hctx, h1, h2]
  · rcases hs with hs | hs | hs | hs <;>
      simp [start_prompt, hctx, h1, h2, hs]

/-- C2 witness: a concrete 429 turn leaves the state untouched. -/
theorem c2_retryable_rollback_witness :
    get_context_from_seagoat [] = some ""
    ∧ ((start_prompt ⟨"gpt-4", false⟩ "hi" (.ok [])
          (.response ⟨429, ⟨"assistant", ""⟩, 0, 0, none⟩)
          ⟨[⟨"system", "s"⟩], 5, 6, none⟩).state = ⟨[⟨"system", "s"⟩], 5, 6, none⟩
      ∧ (start_prompt ⟨"gpt-4", false⟩ "hi" (.ok [])
          (.response ⟨429, ⟨"assistant", ""⟩, 0, 0, none⟩)
          ⟨[⟨"system", "s"⟩], 5, 6, none⟩).exit = .keyboardInterrupt) :=
  ⟨rfl, c2_retryable_rollback ⟨"gpt-4", false⟩ "hi" "" []
    (.response ⟨429, ⟨"assistant", ""⟩, 0, 0, none⟩) ⟨[⟨"system", "s"⟩], 5, 6, none⟩
    rfl (Or.inr (Or.inr ⟨_, rfl, Or.inl rfl⟩))⟩

/-- C3 (code bug): the claim says an empty or `"/q"` utterance routes
directly to termination without appending a user message and without a
remote completion call.  In the code the checks run *after* the utterance
has been interpolated into the augmented-prompt template, so they compare
the augmented message — which is never `""` or `"/q"` — and the turn
proceeds: it appends the user message, performs the remote call, and on a
200 response returns normally instead of terminating. -/
theorem c3_sentinel_checks_dead :
    ((start_prompt ⟨"gpt-4", false⟩ "/q" (.ok [])
        (.response ⟨200, ⟨"assistant", "ok"⟩, 1, 1, none⟩)
        ⟨[], 0, 0, none⟩).remoteCalled = true
      ∧ (start_prompt ⟨"gpt-4", false⟩ "/q" (.ok [])
          (.response ⟨200, ⟨"assistant", "ok"⟩, 1, 1, none⟩)
          ⟨[], 0, 0, none⟩).state.messages.length = 2
      ∧ (start_prompt ⟨"gpt-4", false⟩ "/q" (.ok [])
          (.response ⟨200, ⟨"assistant", "ok"⟩, 1, 1, none⟩)
          ⟨[], 0, 0, none⟩).exit = .normal)
    ∧ ((start_prompt ⟨"gpt-4", false⟩ "" (.ok [])
        (.response ⟨200, ⟨"assistant", "ok"⟩, 1, 1, none⟩)
        ⟨[], 0, 0, none⟩).remoteCalled = true
      ∧ (start_prompt ⟨"gpt-4", false⟩ "" (.ok [])
          (.response ⟨200, ⟨"assistant", "ok"⟩, 1, 1, none⟩)
          ⟨[], 0, 0, none⟩).state.messages.length = 2
      ∧ (start_prompt ⟨"gpt-4", false⟩ "" (.ok [])
          (.response ⟨200, ⟨"assistant", "ok"⟩, 1, 1, none⟩)
          ⟨[], 0, 0, none⟩).exit = .normal) := by
  decide

/-- C4 counterexample: a failing context fetch does not degrade to "no
context": the exception propagates, no user message is appended, no
remote call is made, and the turn exits by an uncaught error that kills
the session (the loop catches only `KeyboardInterrupt` and `EOFError`). -/
theorem c4_counterexample :
    start_prompt ⟨"gpt-4", false⟩ "hello" (.error ())
        (.response ⟨200, ⟨"assistant", "ok"⟩, 1, 1, none⟩) ⟨[], 0, 0, none⟩
      = ⟨.uncaughtError, ⟨[], 0, 0, none⟩, false⟩
    ∧ runTurns ⟨"gpt-4", false⟩ ⟨[], 0, 0, none⟩
        [⟨"hello", .error (), .response ⟨200, ⟨"assistant", "ok"⟩, 1, 1, none⟩⟩]
      = (⟨[], 0, 0, none⟩, 1) := by
  decide

/-- C4 (amended): a context-fetch failure is *not* surfaced as a
`ContextUnavailable` condition: the exception from the search query
propagates uncaught out of `start_prompt`, leaving the state unchanged,
performing no remote call, and terminating the session (the main loop
does not catch it). -/
theorem c4_amended (cfg : Config) (u : String) (e : Unit)
    (req : RequestResult) (st : AppState) (rest : List TurnEnv) :
    start_prompt cfg u (.error e) req st = ⟨.uncaughtError, st, false⟩
    ∧ runTurns cfg st (⟨u, .error e, req⟩ :: rest) = (st, 1) := by
  constructor
  · rfl
  · simp [runTurns, start_prompt]

set_option maxRecDepth 100000 in
/-- C5 counterexample: after a successful turn followed by a 401 fatal
turn, the provisional user message of the fatal turn is still in the
in-memory message list, but the persisted session record — written only
on success — is the one saved after the first turn and does not contain
it, contradicting the claim that it "remains present in the persisted
session record". -/
theorem c5_counterexample :
    (Message.mk "user" (augmentMessage "" "more")) ∈
      (runTurns ⟨"gpt-4", false⟩ ⟨[], 0, 0, none⟩
        [⟨"hi", .ok [], .response ⟨200, ⟨"assistant", "hello"⟩, 3, 4, none⟩⟩,
         ⟨"more", .ok [], .response ⟨401, ⟨"assistant", ""⟩, 0, 0, none⟩⟩]).1.messages
    ∧ (runTurns ⟨"gpt-4", false⟩ ⟨[], 0, 0, none⟩
        [⟨"hi", .ok [], .response ⟨200, ⟨"assistant", "hello"⟩, 3, 4, none⟩⟩,
         ⟨"more", .ok [], .response ⟨401, ⟨"assistant", ""⟩, 0, 0, none⟩⟩]).1.savedRecord
      = some ⟨"gpt-4", [⟨"user", augmentMessage "" "hi"⟩, ⟨"assistant", "hello"⟩], 3, 4⟩
    ∧ (Message.mk "user" (augmentMessage "" "more")) ∉
        [Message.mk "user" (augmentMessage "" "hi"), Message.mk "assistant" "hello"] := by
  decide

/-- C5 (amended): on a FatalFailure other than `ContextLengthExceeded`
(HTTP 400 without the context-length error code, HTTP 401, or any
unrecognized status) the provisional user message is not rolled back from
the in-memory message list and the turn terminates the session, but the
persisted session record is untouched: it is written only on successful
turns, so the provisional message is absent from the persisted record at
termination. -/
theorem c5_fatal_no_rollback (cfg : Config) (u ctx : String)
    (results : List SeagoatResult) (r : ApiResponse) (st : AppState)
    (hctx : get_context_from_seagoat results = some ctx)
    (hfatal : (r.status = 400 ∧ r.errorCode ≠ some "context_length_exceeded")
      ∨ r.status = 401
      ∨ (r.status ≠ 200 ∧ r.status ≠ 400 ∧ r.status ≠ 401 ∧ r.status ≠ 429
          ∧ r.status ≠ 500 ∧ r.status ≠ 502 ∧ r.status ≠ 503)) :
    (start_prompt cfg u (.ok results) (.response r) st).state.messages
      = st.messages ++ [⟨"user", augmentMessage ctx u⟩]
    ∧ (start_prompt cfg u (.ok results) (.response r) st).state.savedRecord
      = st.savedRecord
    ∧ (start_prompt cfg u (.ok results) (.response r) st).exit = .eofError := by
  obtain ⟨h1, h2⟩ := augment_ne_sentinels ctx u
  rcases hfatal with ⟨hs, _⟩ | hs | ⟨hs200, hs400, hs401, hs429, hs500, hs502, hs503⟩
  · simp [start_prompt, hctx, h1, h2, hs]
  · simp [start_prompt, hctx, h1, h2, hs]
  · simp [start_prompt, hctx, h1, h2, hs200, hs400, hs401, hs429, hs500, hs502, hs503]

/-- C5 witness: a concrete 401 turn. -/
theorem c5_fatal_no_rollback_witness :
    get_context_from_seagoat [] = some ""
    ∧ ((start_prompt ⟨"gpt-4", false⟩ "hi" (.ok [])
          (.response ⟨401, ⟨"assistant", ""⟩, 0, 0, none⟩)
          ⟨[], 7, 8, some ⟨"gpt-4", [], 7, 8⟩⟩).state.messages
        = [] ++ [⟨"user", augmentMessage "" "hi"⟩]
      ∧ (start_prompt ⟨"gpt-4", false⟩ "hi" (.ok [])
          (.response ⟨401, ⟨"assistant", ""⟩, 0, 0, none⟩)
          ⟨[], 7, 8, some ⟨"gpt-4", [], 7, 8⟩⟩).state.savedRecord
        = some ⟨"gpt-4", [], 7, 8⟩
      ∧ (start_prompt ⟨"gpt-4", false⟩ "hi" (.ok [])
          (.response ⟨401, ⟨"assistant", ""⟩, 0, 0, none⟩)
          ⟨[], 7, 8, some ⟨"gpt-4", [], 7, 8⟩⟩).exit = .eofError) :=
  ⟨rfl, c5_fatal_no_rollback ⟨"gpt-4", false⟩ "hi" "" []
    ⟨401, ⟨"assistant", ""⟩, 0, 0, none⟩ ⟨[], 7, 8, some ⟨"gpt-4", [], 7, 8⟩⟩
    rfl (Or.inr (Or.inl rfl))⟩

set_option maxRecDepth 100000 in
/-- C6 counterexample: for the end-to-end scenario (utterance
"explain foo()", two snippets of `foo.py` at lines 10–15 and 20–22) the
actual augmented prompt is not the string claim C6 describes — the claim
omits, among other fixed parts, the instruction line that precedes the
first stanza, so the prompt starts with "Answer the users query…" rather
than with "File: foo.py". -/
theorem c6_counterexample :
    get_context_from_seagoat
        [⟨"foo.py",
          [⟨[⟨10, "def foo():"⟩, ⟨11, "    a = 1"⟩, ⟨12, "    b = 2"⟩,
             ⟨13, "    c = 3"⟩, ⟨14, "    d = 4"⟩, ⟨15, "    return a"⟩]⟩,
           ⟨[⟨20, "foo()"⟩, ⟨21, "bar()"⟩, ⟨22, "baz()"⟩]⟩]⟩]
      = some (String.intercalate "\n" (specContextLines
        [⟨"foo.py",
          [⟨[⟨10, "def foo():"⟩, ⟨11, "    a = 1"⟩, ⟨12, "    b = 2"⟩,
             ⟨13, "    c = 3"⟩, ⟨14, "    d = 4"⟩, ⟨15, "    return a"⟩]⟩,
           ⟨[⟨20, "foo()"⟩, ⟨21, "bar()"⟩, ⟨22, "baz()"⟩]⟩]⟩]))
    ∧ augmentMessage (String.intercalate "\n" (specContextLines
        [⟨"foo.py",
          [⟨[⟨10, "def foo():"⟩, ⟨11, "    a = 1"⟩, ⟨12, "    b = 2"⟩,
             ⟨13, "    c = 3"⟩, ⟨14, "    d = 4"⟩, ⟨15, "    return a"⟩]⟩,
           ⟨[⟨20, "foo()"⟩, ⟨21, "bar()"⟩, ⟨22, "baz()"⟩]⟩]⟩])) "explain foo()"
      ≠ claimPromptC6
        [⟨"foo.py",
          [⟨[⟨10, "def foo():"⟩, ⟨11, "    a = 1"⟩, ⟨12, "    b = 2"⟩,
             ⟨13, "    c = 3"⟩, ⟨14, "    d = 4"⟩, ⟨15, "    return a"⟩]⟩,
           ⟨[⟨20, "foo()"⟩, ⟨21, "bar()"⟩, ⟨22, "baz()"⟩]⟩]⟩] "explain foo()" := by
  decide

/-- C6 (amended): for every utterance and retrieved results whose blocks
are all nonempty, the rendered context is exactly one stanza per block in
the order received (each stanza `File: <path>`, `Lines: <first>-<last>`,
a blank line, and the block's lines verbatim between triple-backtick
fences), and the augmented prompt is the fixed instruction line, the
stanzas, a `====` separator line, the literal caveat text, the literal
lead-in, the original utterance in double quotes, and a trailing
newline with four spaces of indentation. -/
theorem c6_prompt_structure (u : String) (results : List SeagoatResult)
    (h : ∀ r ∈ results, ∀ b ∈ r.blocks, b.lines ≠ []) :
    get_context_from_seagoat results
      = some (String.intercalate "\n" (specContextLines results))
    ∧ augmentMessage (String.intercalate "\n" (specContextLines results)) u
      = promptPreamble ++ String.intercalate "\n" (specContextLines results)
        ++ "\n====\n" ++ caveatText
        ++ "\nFinally, this is the actual user query that you have to answer: \""
        ++ u ++ "\"\n    " := by
  constructor
  · exact get_context_eq results h
  · have hmid : promptMiddle
        = "\n====\n" ++ caveatText
          ++ "\nFinally, this is the actual user query that you have to answer: \"" := by
      decide
    rw [augmentMessage.eq_def, hmid, promptTail.eq_def]
    simp [String.append_assoc]

set_option maxRecDepth 100000 in
/-- C6 witness: the amended structure at the end-to-end scenario. -/
theorem c6_prompt_structure_witness :
    (∀ r ∈ [(⟨"foo.py", [⟨[⟨10, "def foo():"⟩, ⟨15, "    return a"⟩]⟩]⟩ : SeagoatResult)],
      ∀ b ∈ r.blocks, b.lines ≠ [])
    ∧ (get_context_from_seagoat [⟨"foo.py", [⟨[⟨10, "def foo():"⟩, ⟨15, "    return a"⟩]⟩]⟩]
        = some (String.intercalate "\n" (specContextLines
            [⟨"foo.py", [⟨[⟨10, "def foo():"⟩, ⟨15, "    return a"⟩]⟩]⟩]))
      ∧ augmentMessage (String.intercalate "\n" (specContextLines
            [⟨"foo.py", [⟨[⟨10, "def foo():"⟩, ⟨15, "    return a"⟩]⟩]⟩])) "explain foo()"
        = promptPreamble ++ String.intercalate "\n" (specContextLines
            [⟨"foo.py", [⟨[⟨10, "def foo():"⟩, ⟨15, "    return a"⟩]⟩]⟩])
          ++ "\n====\n" ++ caveatText
          ++ "\nFinally, this is the actual user query that you have to answer: \""
          ++ "explain foo()" ++ "\"\n    ") :=
  ⟨by decide, c6_prompt_structure "explain foo()"
    [⟨"foo.py", [⟨[⟨10, "def foo():"⟩, ⟨15, "    return a"⟩]⟩]⟩] (by decide)⟩

/-- C8 counterexample: with the non-interactive flag set, a turn that
ends in a RetryableFailure (HTTP 429) raises `KeyboardInterrupt`, which
the main loop answers with `continue` — a second turn *is* started, so
the session does not end after the first turn's terminal outcome. -/
theorem c8_counterexample :
    (runTurns ⟨"gpt-4", true⟩ ⟨[], 0, 0, none⟩
      [⟨"q1", .ok [], .response ⟨429, ⟨"assistant", ""⟩, 0, 0, none⟩⟩,
       ⟨"", .ok [], .response ⟨200, ⟨"assistant", "late"⟩, 1, 1, none⟩⟩]).2 = 2 := by
  decide

/-- C8 (amended): with the non-interactive flag set, the utterance is the
single stdin block and the session ends immediately after a turn whose
outcome is Success or a FatalFailure (exactly one turn is started); but a
turn ending in a RetryableFailure loops back and starts another turn. -/
theorem c8_non_interactive_single_turn (cfg : Config) (env : TurnEnv)
    (rest : List TurnEnv) (st : AppState)
    (results : List SeagoatResult) (ctx : String) (r : ApiResponse)
    (hni : cfg.non_interactive = true)
    (hsea : env.seagoat = .ok results)
    (hctx : get_context_from_seagoat results = some ctx)
    (hreq : env.request = .response r)
    (hnr : r.status ≠ 429 ∧ r.status ≠ 500 ∧ r.status ≠ 502 ∧ r.status ≠ 503) :
    (runTurns cfg st (env :: rest)).2 = 1 := by
  obtain ⟨h1, h2⟩ := augment_ne_sentinels ctx env.utterance
  obtain ⟨hnr429, hnr500, hnr502, hnr503⟩ := hnr
  obtain ⟨u, sea, req⟩ := env
  simp only at hsea hreq h1 h2
  subst hsea; subst hreq
  by_cases hs200 : r.status = 200
  · simp [runTurns, start_prompt, hctx, h1, h2, hs200, hni]
  · by_cases hs400 : r.status = 400
    · simp [runTurns, start_prompt, hctx, h1, h2, hs200, hs400]
    · by_cases hs401 : r.status = 401
      · simp [runTurns, start_prompt, hctx, h1, h2, hs200, hs400, hs401]
      · simp [runTurns, start_prompt, hctx, h1, h2, hs200, hs400, hs401,
          hnr429, hnr500, hnr502, hnr503]

/-- C8 witness: a concrete successful non-interactive turn runs exactly
once even with more input queued. -/
theorem c8_non_interactive_single_turn_witness :
    (⟨"gpt-4", true⟩ : Config).non_interactive = true
    ∧ (⟨"hi", .ok [], .response ⟨200, ⟨"assistant", "ok"⟩, 1, 1, none⟩⟩ : TurnEnv).seagoat
        = .ok []
    ∧ get_context_from_seagoat [] = some ""
    ∧ (⟨"hi", .ok [], .response ⟨200, ⟨"assistant", "ok"⟩, 1, 1, none⟩⟩ : TurnEnv).request
        = .response ⟨200, ⟨"assistant", "ok"⟩, 1, 1, none⟩
    ∧ (runTurns ⟨"gpt-4", true⟩ ⟨[], 0, 0, none⟩
        [⟨"hi", .ok [], .response ⟨200, ⟨"assistant", "ok"⟩, 1, 1, none⟩⟩,
         ⟨"again", .ok [], .response ⟨200, ⟨"assistant", "ok"⟩, 1, 1, none⟩⟩]).2 = 1 :=
  ⟨rfl, rfl, rfl, rfl,
    c8_non_interactive_single_turn ⟨"gpt-4", true⟩
      ⟨"hi", .ok [], .response ⟨200, ⟨"assistant", "ok"⟩, 1, 1, none⟩⟩
      [⟨"again", .ok [], .response ⟨200, ⟨"assistant", "ok"⟩, 1, 1, none⟩⟩]
      ⟨[], 0, 0, none⟩ [] "" ⟨200, ⟨"assistant", "ok"⟩, 1, 1, none⟩
      rfl rfl rfl rfl
      ⟨by decide, by decide, by decide, by decide⟩⟩

/-- C10: if `--restore` is given and the target session file does not
exist, the in-memory message list is left empty — the system messages
appended earlier in startup (the markdown instruction and the `--context`
file contents) were cleared before the load was attempted — the missing
file is reported, both token counters are zero, and startup completes
normally so the session proceeds. -/
theorem c10_restore_missing (contextFiles : List String) (restoreArg : String)
    (fs : List (String × SessionRecord))
    (h : fs.lookup (restoreFileName restoreArg (fs.map Prod.fst)) = none) :
    main_startup true contextFiles (some restoreArg) fs
      = ⟨⟨[], 0, 0, none⟩, true⟩ := by
  simp [main_startup, load_history_data, h]

/-- C10 witness: restoring a nonexistent timestamp with a markdown system
message and one context file in place. -/
theorem c10_restore_missing_witness :
    ([] : List (String × SessionRecord)).lookup
        (restoreFileName "20240101-121212" (([] : List (String × SessionRecord)).map Prod.fst))
      = none
    ∧ main_startup true ["some context"] (some "20240101-121212") []
      = ⟨⟨[], 0, 0, none⟩, true⟩ :=
  ⟨rfl, c10_restore_missing ["some context"] "20240101-121212" [] rfl⟩

/-- C7: `"last"` resolves to the lexicographically greatest timestamp
among the `.json` session files (first conjunct: every available
timestamp is bounded by the resolved one); after three saves at
timestamps `t1 < t3` and `t2 < t3` from distinct runs, restoring
`"last"` installs the record saved at `t3` (second conjunct); and loading
a file that does not exist fails with the session-not-found error (third
conjunct). -/
theorem c7_load_last (md : Bool) (ctxs : List String)
    (t1 t2 t3 : String) (r1 r2 r3 : SessionRecord) (n1 n2 n3 : String)
    (hn3 : n3 = "chatgpt-session-" ++ t3 ++ ".json")
    (he1 : pyEndsWith n1 ".json" = true)
    (he2 : pyEndsWith n2 ".json" = true)
    (he3 : pyEndsWith n3 ".json" = true)
    (hs1 : stripSessionName n1 = t1)
    (hs2 : stripSessionName n2 = t2)
    (hs3 : stripSessionName n3 = t3)
    (h13 : strle t1 t3) (h23 : strle t2 t3)
    (hne13 : t1 ≠ t3) (hne23 : t2 ≠ t3)
    (hd1 : n1 ≠ n3) (hd2 : n2 ≠ n3) :
    (∀ (files : List String) (t : String), get_last_save_file files = some t →
      ∀ f ∈ files, pyEndsWith f ".json" = true → strle (stripSessionName f) t)
    ∧ (main_startup md ctxs (some "last") [(n1, r1), (n2, r2), (n3, r3)]).state
        = ⟨r3.messages, r3.prompt_tokens, r3.completion_tokens, none⟩
    ∧ (∀ (gs : List (String × SessionRecord)) (name : String),
        gs.lookup name = none → load_history_data gs name = .error ()) := by
  have hfilter : [n1, n2, n3].filter (fun f => pyEndsWith f ".json") = [n1, n2, n3] := by
    simp [List.filter_cons, he1, he2, he3]
  have hmap : [n1, n2, n3].map stripSessionName = [t1, t2, t3] := by
    simp [hs1, hs2, hs3]
  have hne : List.insertionSort strle [t1, t2, t3] ≠ [] := by
    intro h0
    have hp := List.perm_insertionSort strle [t1, t2, t3]
    rw [h0] at hp
    have := hp.length_eq
    simp at this
  have hgl : get_last_save_file [n1, n2, n3]
      = some ((List.insertionSort strle [t1, t2, t3]).getLast hne) := by
    unfold get_last_save_file
    rw [hfilter]
    simp only [List.isEmpty_cons, Bool.false_eq_true, if_false]
    rw [hmap]
    exact List.getLast?_eq_getLast _ hne
  obtain ⟨⟨f, hfmem, hfends, hfstrip⟩, hub⟩ := get_last_save_file_spec _ _ hgl
  have hub3 : strle t3 ((List.insertionSort strle [t1, t2, t3]).getLast hne) := by
    have := hub n3 (by simp) he3
    rwa [hs3] at this
  have hT3 : (List.insertionSort strle [t1, t2, t3]).getLast hne = t3 := by
    simp only [List.mem_cons, List.not_mem_nil, or_false] at hfmem
    rcases hfmem with rfl | rfl | rfl
    · rw [hs1] at hfstrip
      rw [← hfstrip] at hub3
      exact absurd (strle_antisymm h13 hub3) hne13
    · rw [hs2] at hfstrip
      rw [← hfstrip] at hub3
      exact absurd (strle_antisymm h23 hub3) hne23
    · rw [hs3] at hfstrip
      exact hfstrip.symm
  rw [hT3] at hgl
  have hres : restoreFileName "last" [n1, n2, n3] = n3 := by
    simp only [restoreFileName, if_pos rfl, hgl]
    exact hn3.symm
  have hb1 : (n3 == n1) = false := beq_eq_false_iff_ne.mpr (Ne.symm hd1)
  have hb2 : (n3 == n2) = false := beq_eq_false_iff_ne.mpr (Ne.symm hd2)
  have hlookup : List.lookup n3 [(n1, r1), (n2, r2), (n3, r3)] = some r3 := by
    simp [List.lookup, hb1, hb2]
  refine ⟨fun files t ht => (get_last_save_file_spec files t ht).2, ?_,
    fun gs name h => by simp [load_history_data, h]⟩
  have hfst : [(n1, r1), (n2, r2), (n3, r3)].map Prod.fst = [n1, n2, n3] := rfl
  simp [main_startup, hfst, hres, load_history_data, hlookup]

/-- C7 witness: three concrete saves; restoring `"last"` installs the
record with the greatest timestamp. -/
theorem c7_load_last_witness :
    (∀ (files : List String) (t : String), get_last_save_file files = some t →
      ∀ f ∈ files, pyEndsWith f ".json" = true → strle (stripSessionName f) t)
    ∧ (main_startup false [] (some "last")
        [("chatgpt-session-20240101-000001.json", ⟨"gpt-4", [], 1, 1⟩),
         ("chatgpt-session-20240102-000002.json", ⟨"gpt-4", [], 2, 2⟩),
         ("chatgpt-session-20240103-000003.json", ⟨"gpt-4", [⟨"user", "u3"⟩], 3, 4⟩)]).state
        = ⟨[⟨"user", "u3"⟩], 3, 4, none⟩
    ∧ (∀ (gs : List (String × SessionRecord)) (name : String),
        gs.lookup name = none → load_history_data gs name = .error ()) := by
  have h := c7_load_last false [] "20240101-000001" "20240102-000002" "20240103-000003"
    ⟨"gpt-4", [], 1, 1⟩ ⟨"gpt-4", [], 2, 2⟩ ⟨"gpt-4", [⟨"user", "u3"⟩], 3, 4⟩
    "chatgpt-session-20240101-000001.json" "chatgpt-session-20240102-000002.json"
    "chatgpt-session-20240103-000003.json"
    (by decide) (by decide) (by decide) (by decide) (by decide) (by decide) (by decide)
    (by decide) (by decide) (by decide) (by decide) (by decide) (by decide)
  exact h

/-- C9: for every model with a pricing entry (every table rate is an
exact multiple of 0.001, witnessed by the integer per-1000-token milli-rates
`a` and `b`), the expense report is the computed estimate; the estimate
renders the exact value `(pt/1000)*prompt_rate + (ct/1000)*completion_rate`
as a decimal string with exactly six fractional digits and no rounding
loss; a model without a pricing entry produces the distinguishable
no-estimate warning instead; and the concrete instance at prompt rate
0.03 / completion rate 0.06 with 1000 + 1000 tokens is "0.090000". -/
theorem c9_expense (model : String) (pp cp : ℚ) (pt ct : Nat) (a b : ℤ)
    (hlook : PRICING_RATE.lookup model = some (pp, cp))
    (hpa : pp * 1000 = (a : ℚ)) (hcb : cp * 1000 = (b : ℚ)) :
    display_expense model pt ct = .estimate (pt + ct) (calculate_expense pt ct pp cp)
    ∧ calculate_expense pt ct pp cp = formatFixed6 (spec_estimate pt ct pp cp)
    ∧ (∃ ip fp : String, calculate_expense pt ct pp cp = ip ++ "." ++ fp
        ∧ fp.length = 6 ∧ ∀ c ∈ fp.data, c.isDigit = true)
    ∧ ((roundHalfEven (spec_estimate pt ct pp cp * 1000000) : ℚ)
        = spec_estimate pt ct pp cp * 1000000)
    ∧ (∀ m : String, PRICING_RATE.lookup m = none →
        display_expense m pt ct = .noEstimate (pt + ct) m)
    ∧ display_expense "gpt-4" 1000 1000 = .estimate 2000 "0.090000" := by
  have hmicro : spec_estimate pt ct pp cp * 1000000
      = (((pt : ℤ) * a + (ct : ℤ) * b : ℤ) : ℚ) := by
    have h1 : spec_estimate pt ct pp cp * 1000000
        = (pt : ℚ) * (pp * 1000) + (ct : ℚ) * (cp * 1000) := by
      unfold spec_estimate
      ring
    rw [h1, hpa, hcb]
    push_cast
    ring
  refine ⟨by simp [display_expense, hlook], calculate_expense_eq pt ct pp cp,
    ?_, ?_, fun m h => by simp [display_expense, h], ?_⟩
  · refine ⟨(if ((pt : ℤ) * a + (ct : ℤ) * b : ℤ) < 0 then "-" else "")
        ++ Nat.repr (((pt : ℤ) * a + (ct : ℤ) * b : ℤ).natAbs / 1000000),
      String.mk [fracDigit ((pt : ℤ) * a + (ct : ℤ) * b : ℤ).natAbs 5,
                 fracDigit ((pt : ℤ) * a + (ct : ℤ) * b : ℤ).natAbs 4,
                 fracDigit ((pt : ℤ) * a + (ct : ℤ) * b : ℤ).natAbs 3,
                 fracDigit ((pt : ℤ) * a + (ct : ℤ) * b : ℤ).natAbs 2,
                 fracDigit ((pt : ℤ) * a + (ct : ℤ) * b : ℤ).natAbs 1,
                 fracDigit ((pt : ℤ) * a + (ct : ℤ) * b : ℤ).natAbs 0], ?_, rfl, ?_⟩
    · rw [calculate_expense_eq pt ct pp cp, formatFixed6_of_intMicro _ _ hmicro]
    · intro c hc
      simp only [String.data] at hc
      simp only [List.mem_cons, List.not_mem_nil, or_false] at hc
      rcases hc with rfl | rfl | rfl | rfl | rfl | rfl <;>
        exact digitChar_isDigit _ (Nat.mod_lt _ (by norm_num))
  · rw [hmicro, roundHalfEven_intCast]
  · have hl4 : PRICING_RATE.lookup "gpt-4" = some (3/100, 6/100) := rfl
    have hm : spec_estimate 1000 1000 (3/100) (6/100) * 1000000
        = ((90000 : ℤ) : ℚ) := by
      norm_num [spec_estimate]
    have hcalc : calculate_expense 1000 1000 (3/100) (6/100) = "0.090000" := by
      rw [calculate_expense_eq, formatFixed6_of_intMicro _ 90000 hm]
      decide
    simp [display_expense, hl4, hcalc]

/-- C9 witness: the gpt-4 pricing entry at 500 prompt / 250 completion
tokens. -/
theorem c9_expense_witness :
    PRICING_RATE.lookup "gpt-4" = some (3/100, 6/100)
    ∧ (3/100 : ℚ) * 1000 = ((30 : ℤ) : ℚ)
    ∧ (6/100 : ℚ) * 1000 = ((60 : ℤ) : ℚ)
    ∧ (display_expense "gpt-4" 500 250
        = .estimate (500 + 250) (calculate_expense 500 250 (3/100) (6/100))
      ∧ calculate_expense 500 250 (3/100) (6/100)
        = formatFixed6 (spec_estimate 500 250 (3/100) (6/100))
      ∧ (∃ ip fp : String, calculate_expense 500 250 (3/100) (6/100) = ip ++ "." ++ fp
          ∧ fp.length = 6 ∧ ∀ c ∈ fp.data, c.isDigit = true)
      ∧ ((roundHalfEven (spec_estimate 500 250 (3/100) (6/100) * 1000000) : ℚ)
          = spec_estimate 500 250 (3/100) (6/100) * 1000000)
      ∧ (∀ m : String, PRICING_RATE.lookup m = none →
          display_expense m 500 250 = .noEstimate (500 + 250) m)
      ∧ display_expense "gpt-4" 1000 1000 = .estimate 2000 "0.090000") :=
  ⟨rfl, by norm_num, by norm_num,
    c9_expense "gpt-4" (3/100) (6/100) 500 250 30 60 rfl (by norm_num) (by norm_num)⟩
